import Mathlib

/-!
Verification of the ESR board self-test program (src/ESR-R-TESTPROGRAM1.py)
against its natural-language specification.

The program is a MicroPython hardware bring-up harness.  The shallow
embedding below models its algorithmic core: the HSV→RGB color converter,
the peripheral registry of `available` flags and cached measurements, the
button debouncer, the four display pages, the rainbow animation tick, the
per-peripheral functional tests, and the process-exit cleanup sequence.

Modelling conventions:
* MicroPython floats are modelled as exact rationals (ℚ); the arithmetic in
  the claims stays far from any binary-float rounding boundary, and the one
  counterexample used (h = 30, s = v = 255) is exact in binary floats too.
* `time.ticks_ms` timestamps are modelled as ℤ with `ticks_diff a b = a - b`
  (wrap-around is irrelevant at the 200 ms scales the claims mention).
* Hardware faults are injected through explicit environment records: a
  `true` fault flag means the corresponding driver call raises.
* Side effects on output devices (PWM tones, RGB duty writes, pauses) are
  returned as explicit effect lists; display output is returned as a list
  of structured `Line` values, one per `oled.text` call, carrying the
  dynamic data that the source interpolates into each line.
-/

namespace ESRTest

/-- Python float modulo `q % n` for a positive modulus: `q - n * ⌊q / n⌋`
(the result carries the sign of the divisor, hence lies in `[0, n)`). -/
def pymod (q n : ℚ) : ℚ := q - n * ⌊q / n⌋

/-- Python `int()` applied to a float: truncation toward zero. -/
def pytrunc (q : ℚ) : ℤ := if q < 0 then -⌊-q⌋ else ⌊q⌋

/-- The source's `hsv_to_rgb(h, s, v)` (lines 675-708): normalize `s` and
`v` to `[0,1]`, compute chroma `c`, intermediate `x`, offset `m`, select the
pre-offset triple by an if/elif chain over six 60-degree hue sextants, and
convert each channel with `int((channel + m) * 255)`. -/
def hsv_to_rgb (h : ℚ) (s v : ℕ) : ℤ × ℤ × ℤ :=
  let s' : ℚ := (s : ℚ) / 255
  let v' : ℚ := (v : ℚ) / 255
  let c : ℚ := v' * s'
  let x : ℚ := c * (1 - |pymod (h / 60) 2 - 1|)
  let m : ℚ := v' - c
  let rgb : ℚ × ℚ × ℚ :=
    if 0 ≤ h ∧ h < 60 then (c, x, 0)
    else if 60 ≤ h ∧ h < 120 then (x, c, 0)
    else if 120 ≤ h ∧ h < 180 then (0, c, x)
    else if 180 ≤ h ∧ h < 240 then (0, x, c)
    else if 240 ≤ h ∧ h < 300 then (x, 0, c)
    else (c, 0, x)
  (pytrunc ((rgb.1 + m) * 255), pytrunc ((rgb.2.1 + m) * 255),
   pytrunc ((rgb.2.2 + m) * 255))

/-- Modelled from the spec's words (reference for claim C1): the standard
six-sextant HSV→RGB algorithm, selecting the pre-offset triple by the
half-open 60-degree sextant `⌊h/60⌋` containing `h`, with the final
channels computed as `round((channel + m) * 255)` as the spec states. -/
def hsv_round_ref (h : ℚ) (s v : ℕ) : ℤ × ℤ × ℤ :=
  let s' : ℚ := (s : ℚ) / 255
  let v' : ℚ := (v : ℚ) / 255
  let c : ℚ := v' * s'
  let x : ℚ := c * (1 - |pymod (h / 60) 2 - 1|)
  let m : ℚ := v' - c
  let k : ℤ := ⌊h / 60⌋
  let rgb : ℚ × ℚ × ℚ :=
    if k = 0 then (c, x, 0)
    else if k = 1 then (x, c, 0)
    else if k = 2 then (0, c, x)
    else if k = 3 then (0, x, c)
    else if k = 4 then (x, 0, c)
    else (c, 0, x)
  (round ((rgb.1 + m) * 255), round ((rgb.2.1 + m) * 255),
   round ((rgb.2.2 + m) * 255))

/-- The same sextant-indexed reference algorithm, but with the final
channels computed by `int()` truncation as the source actually does (the
amended form of claim C1). -/
def hsv_trunc_ref (h : ℚ) (s v : ℕ) : ℤ × ℤ × ℤ :=
  let s' : ℚ := (s : ℚ) / 255
  let v' : ℚ := (v : ℚ) / 255
  let c : ℚ := v' * s'
  let x : ℚ := c * (1 - |pymod (h / 60) 2 - 1|)
  let m : ℚ := v' - c
  let k : ℤ := ⌊h / 60⌋
  let rgb : ℚ × ℚ × ℚ :=
    if k = 0 then (c, x, 0)
    else if k = 1 then (x, c, 0)
    else if k = 2 then (0, c, x)
    else if k = 3 then (0, x, c)
    else if k = 4 then (x, 0, c)
    else (c, 0, x)
  (pytrunc ((rgb.1 + m) * 255), pytrunc ((rgb.2.1 + m) * 255),
   pytrunc ((rgb.2.2 + m) * 255))

/-- The `test_results` dictionary of `ComponentTest.__init__` (lines 60-77):
per-peripheral `available` flags plus the cached measurement values. -/
structure Registry where
  oled_ok : Bool
  ws2812b_ok : Bool
  sd_ok : Bool
  dht22_ok : Bool
  button_ok : Bool
  buzzer_ok : Bool
  ldr_ok : Bool
  trimmer_ok : Bool
  rgb_led_ok : Bool
  temperature : ℚ
  humidity : ℚ
  ldr_value : ℕ
  trimmer_value : ℕ
deriving DecidableEq

/-- The UI/timing instance variables of `ComponentTest.__init__`
(lines 80-84). -/
structure Ui where
  current_page : ℕ
  last_button_time : ℤ
  last_display_update : ℤ
  last_rainbow_update : ℤ
  color_index : ℕ
deriving DecidableEq

/-- `TOTAL_PAGES = 4` (line 43). -/
def TOTAL_PAGES : ℕ := 4

/-- `NUM_PIXELS = 10` (line 42). -/
def NUM_PIXELS : ℕ := 10

/-- `DEBOUNCE_DELAY = 200` ms (line 44). -/
def DEBOUNCE_DELAY : ℤ := 200

/-- The initial UI state set up by the constructor: page 0 and all
timestamps zero. -/
def ui0 : Ui := ⟨0, 0, 0, 0, 0⟩

/-- Observable output-device actions. -/
inductive Effect where
  | tone (freq dur : ℕ)
  | pause (ms : ℕ)
  | rgbSet (r g b : ℕ)
deriving DecidableEq

/-- Fault-injection environment for the buzzer PWM driver: `toneFault`
means the `freq`/`duty_u16` calls inside `play_tone` raise. -/
structure ToneEnv where
  toneFault : Bool
deriving DecidableEq

/-- `play_tone` (lines 618-636): early return when the buzzer is
unavailable, otherwise set frequency and 50% duty, hold, then silence.
The whole body sits inside a bare `try/except: pass`, so a driver fault
is swallowed and the function never raises; on a fault no tone results. -/
def play_tone (reg : Registry) (env : ToneEnv) (freq dur : ℕ) : List Effect :=
  if !reg.buzzer_ok then []
  else if env.toneFault then []
  else [Effect.tone freq dur]

/-- `check_button` (lines 412-447): on an active (low) button level, if
more than `DEBOUNCE_DELAY` ms elapsed since the last accepted trigger,
accept it: set `button_ok`, advance the page cyclically, play the
confirmation tone if the buzzer is available, flash the RGB LED white if
available, and record the trigger time.  Otherwise do nothing. -/
def check_button (pressed : Bool) (now : ℤ) (env : ToneEnv)
    (reg : Registry) (ui : Ui) : Registry × Ui × List Effect :=
  if pressed then
    if now - ui.last_button_time > DEBOUNCE_DELAY then
      let reg' := { reg with button_ok := true }
      let fx :=
        (if reg'.buzzer_ok then play_tone reg' env 1000 100 else []) ++
        (if reg'.rgb_led_ok then
          [Effect.rgbSet 255 255 255, Effect.pause 100, Effect.rgbSet 0 0 0]
         else [])
      (reg',
       { ui with current_page := (ui.current_page + 1) % TOTAL_PAGES,
                 last_button_time := now },
       fx)
    else (reg, ui, [])
  else (reg, ui, [])

/-- One structured line of OLED output, one constructor per `oled.text`
call shape, carrying the dynamic values the source interpolates. -/
inductive Line where
  | text (s : String)
  | statusLine (name status : String)
  | temp (t : ℚ)
  | humidity (h : ℚ)
  | dhtNoData
  | ldrPercent (p : ℕ)
  | ldrFail
  | trimPercent (p : ℕ)
  | trimFail
  | buzzerStatus (s : String)
  | rgbStatus (s : String)
  | tempHum (t h : ℚ)
  | pageIndicator (cur total : ℕ)
deriving DecidableEq

/-- The ADC raw-to-percent conversion `(value * 100) // 65535` used on
display pages 2, 3 and 4 (lines 542, 557, 592, 596): Nat division is
floor division, as in Python `//`. -/
def adc_percent (v : ℕ) : ℕ := v * 100 / 65535

/-- ADC read result: `none` models `read_u16()` raising. -/
def AdcRead := Option ℕ

/-- `test_ldr` (lines 290-306): skip when unavailable; store the raw
reading on success; demote `ldr_ok` on a raising read. -/
def test_ldr (reg : Registry) (r : Option ℕ) : Registry :=
  if !reg.ldr_ok then reg
  else
    match r with
    | some v => { reg with ldr_value := v }
    | none => { reg with ldr_ok := false }

/-- `test_trimmer` (lines 308-323): same shape as `test_ldr`. -/
def test_trimmer (reg : Registry) (r : Option ℕ) : Registry :=
  if !reg.trimmer_ok then reg
  else
    match r with
    | some v => { reg with trimmer_value := v }
    | none => { reg with trimmer_ok := false }

/-- `test_dht22` (lines 261-288): skip when unavailable; store temperature
and humidity on success; demote `dht22_ok` on a raising measure/read. -/
def test_dht22 (reg : Registry) (r : Option (ℚ × ℚ)) : Registry :=
  if !reg.dht22_ok then reg
  else
    match r with
    | some th => { reg with temperature := th.1, humidity := th.2 }
    | none => { reg with dht22_ok := false }

/-- The status text of `display_page1` (lines 508-516): `OK` when the flag
is set, else `FAIL`, except that the button shows `Press` before its first
confirmed press. -/
def status_text (name : String) (ok : Bool) : String :=
  if ok then "OK" else if name ≠ "Button" then "FAIL" else "Press"

/-- `display_page1` (lines 489-519): the status summary page. -/
def display_page1 (reg : Registry) : List Line :=
  [Line.text "== Pico2 W Status ==",
   Line.statusLine "OLED" (status_text "OLED" reg.oled_ok),
   Line.statusLine "WS2812B" (status_text "WS2812B" reg.ws2812b_ok),
   Line.statusLine "SD Card" (status_text "SD Card" reg.sd_ok),
   Line.statusLine "DHT22" (status_text "DHT22" reg.dht22_ok),
   Line.statusLine "Button" (status_text "Button" reg.button_ok)]

/-- `display_page2` (lines 521-545): sensor page; temperature/humidity only
when `dht22_ok`, else the `DHT22: No Data` placeholder; LDR percent only
when `ldr_ok`, else `LDR: FAIL`. -/
def display_page2 (reg : Registry) : List Line :=
  [Line.text "=== Sensors ==="] ++
  (if reg.dht22_ok then
    [Line.temp reg.temperature, Line.humidity reg.humidity]
   else [Line.dhtNoData]) ++
  (if reg.ldr_ok then [Line.ldrPercent (adc_percent reg.ldr_value)]
   else [Line.ldrFail])

/-- `display_page3` (lines 547-572): controls page. -/
def display_page3 (reg : Registry) : List Line :=
  [Line.text "=== Controls ==="] ++
  (if reg.trimmer_ok then [Line.trimPercent (adc_percent reg.trimmer_value)]
   else [Line.trimFail]) ++
  [Line.buzzerStatus (if reg.buzzer_ok then "OK" else "FAIL"),
   Line.rgbStatus (if reg.rgb_led_ok then "OK" else "FAIL"),
   Line.text "Press button to",
   Line.text "cycle pages"]

/-- ADC read results available to the live-data page's synchronous
re-reads. -/
structure Page4Env where
  ldrRead : Option ℕ
  trimmerRead : Option ℕ
deriving DecidableEq

/-- `display_page4` (lines 574-600): re-reads LDR and trimmer via
`test_ldr`/`test_trimmer`, then renders the combined temperature/humidity
line, the LDR and trimmer percentages, and the animation status line.
None of these render steps checks an `available` flag. -/
def display_page4 (reg : Registry) (env : Page4Env) : Registry × List Line :=
  let reg1 := test_ldr reg env.ldrRead
  let reg2 := test_trimmer reg1 env.trimmerRead
  (reg2,
   [Line.text "=== Live Data ===",
    Line.tempHum reg2.temperature reg2.humidity,
    Line.ldrPercent (adc_percent reg2.ldr_value),
    Line.trimPercent (adc_percent reg2.trimmer_value),
    Line.text "WS2812B: Rainbow"])

/-- `update_display` (lines 449-487): no-op when the OLED is unavailable
or fewer than 500 ms elapsed since the last redraw; otherwise render the
page selected by the cursor, append the `P{n}/{total}` indicator, commit
the frame, and record the redraw time. -/
def update_display (reg : Registry) (env : Page4Env) (ui : Ui) (now : ℤ) :
    Registry × Ui × Option (List Line) :=
  if !reg.oled_ok then (reg, ui, none)
  else if now - ui.last_display_update > 500 then
    let body : Registry × List Line :=
      if ui.current_page = 0 then (reg, display_page1 reg)
      else if ui.current_page = 1 then (reg, display_page2 reg)
      else if ui.current_page = 2 then (reg, display_page3 reg)
      else if ui.current_page = 3 then display_page4 reg env
      else (reg, [])
    (body.1, { ui with last_display_update := now },
     some (body.2 ++ [Line.pageIndicator (ui.current_page + 1) TOTAL_PAGES]))
  else (reg, ui, none)

/-- `rainbow_demo` (lines 638-673): no-op when the strip is unavailable or
fewer than 150 ms elapsed; otherwise compute the ten pixel colors with
`hsv_to_rgb ((color_index + i * 36) % 360) 255 100`, commit them in one
write, and advance the phase by 15 degrees modulo 360. -/
def rainbow_demo (reg : Registry) (ui : Ui) (now : ℤ) :
    Ui × Option (List (ℤ × ℤ × ℤ)) :=
  if !reg.ws2812b_ok then (ui, none)
  else if now - ui.last_rainbow_update > 150 then
    let pixels := (List.range NUM_PIXELS).map
      (fun i => hsv_to_rgb (((ui.color_index + i * 36) % 360 : ℕ) : ℚ) 255 100)
    ({ ui with color_index := (ui.color_index + 15) % 360,
               last_rainbow_update := now },
     some pixels)
  else (ui, none)

/-- `test_buzzer` (lines 325-347): skip when unavailable, else play
1500 Hz for 200 ms, pause 100 ms, play 2000 Hz for 200 ms, pause 100 ms.
The `try/except` that would demote `buzzer_ok` surrounds only calls that
cannot raise: `play_tone` swallows its own driver faults internally and
`time.sleep_ms` does not raise, so the except branch is unreachable and
the registry is returned unchanged. -/
def test_buzzer (reg : Registry) (env : ToneEnv) : Registry × List Effect :=
  if !reg.buzzer_ok then (reg, [])
  else
    (reg,
     play_tone reg env 1500 200 ++ [Effect.pause 100] ++
     play_tone reg env 2000 200 ++ [Effect.pause 100])

/-- `set_rgb_color` (lines 602-616): early return when the RGB LED is
unavailable (so no driver call and no possible fault), else write the three
PWM duty registers; `fault = true` models those writes raising. -/
def set_rgb_color (reg : Registry) (fault : Bool) (r g b : ℕ) :
    Except Unit (List Effect) :=
  if !reg.rgb_led_ok then Except.ok []
  else if fault then Except.error ()
  else Except.ok [Effect.rgbSet r g b]

/-- `test_rgb_led` (lines 349-376): skip when unavailable; cycle red,
green, blue, white for 300 ms each and end dark; a raising driver call is
caught and demotes `rgb_led_ok` (effects before the fault point elided). -/
def test_rgb_led (reg : Registry) (fault : Bool) : Registry × List Effect :=
  if !reg.rgb_led_ok then (reg, [])
  else if fault then ({ reg with rgb_led_ok := false }, [])
  else
    (reg,
     [Effect.rgbSet 255 0 0, Effect.pause 300,
      Effect.rgbSet 0 255 0, Effect.pause 300,
      Effect.rgbSet 0 0 255, Effect.pause 300,
      Effect.rgbSet 255 255 255, Effect.pause 300,
      Effect.rgbSet 0 0 0])

/-- The test payload written by `test_sd_card`: `'Pico2 W Test'`. -/
def sd_payload : List Char := "Pico2 W Test".toList

/-- The substring that `test_sd_card` verifies: `'Pico2 W'`. -/
def sd_needle : List Char := "Pico2 W".toList

/-- Python's `needle in hay` substring test on the modelled file
contents. -/
def containsSub (needle hay : List Char) : Bool := decide (needle <:+: hay)

/-- Fault-injection environment for the SD filesystem: `writeOk = false`
models the write raising; `readResult = none` models the read raising and
`some c` models the read returning content `c` (a healthy card returns
exactly the written payload); `removeOk = false` models `uos.remove`
raising. -/
structure SdEnv where
  writeOk : Bool
  readResult : Option (List Char)
  removeOk : Bool
deriving DecidableEq

/-- `test_sd_card` (lines 378-410) over the modelled filesystem `fs`
(the contents of `/sd/test.txt`, `none` when absent): skip when
unavailable; write the payload; read it back; if the content does not
contain `'Pico2 W'` demote `sd_ok` (without raising); then remove the
file.  Any raising step jumps to the handler, which demotes `sd_ok` and
skips the remaining steps. -/
def test_sd_card (reg : Registry) (fs : Option (List Char)) (env : SdEnv) :
    Registry × Option (List Char) :=
  if !reg.sd_ok then (reg, fs)
  else if !env.writeOk then ({ reg with sd_ok := false }, fs)
  else
    let fs1 : Option (List Char) := some sd_payload
    match env.readResult with
    | none => ({ reg with sd_ok := false }, fs1)
    | some content =>
      let reg1 :=
        if containsSub sd_needle content then reg
        else { reg with sd_ok := false }
      if env.removeOk then (reg1, none)
      else ({ reg1 with sd_ok := false }, fs1)

/-- Which cleanup steps the process-exit `finally` block completed. -/
structure OutState where
  rgbOff : Bool
  stripOff : Bool
  buzzerOff : Bool
deriving DecidableEq

/-- Fault-injection environment for the exit cleanup: a `true` flag means
the corresponding driver call raises. -/
structure CleanupEnv where
  rgbFault : Bool
  stripFault : Bool
  buzzerFault : Bool
deriving DecidableEq

/-- The `finally` block of `__main__` (lines 764-779): one `try/except`
wraps `set_rgb_color(0,0,0)`, `ws2812b.fill((0,0,0))` + `write()` and
`buzzer.duty_u16(0)` in sequence.  The strip and buzzer writes are not
guarded by any `available` flag.  The single handler swallows the first
raising step and the remaining steps are skipped. -/
def final_cleanup (reg : Registry) (env : CleanupEnv) : OutState :=
  match set_rgb_color reg env.rgbFault 0 0 0 with
  | Except.error _ => ⟨false, false, false⟩
  | Except.ok _ =>
    let o1 : OutState := ⟨reg.rgb_led_ok, false, false⟩
    if env.stripFault then o1
    else
      let o2 := { o1 with stripOff := true }
      if env.buzzerFault then o2
      else { o2 with buzzerOff := true }

/-- One scheduling step of the main loop (lines 727-749): the loop body
runs `check_button`, `update_display` and `rainbow_demo`; each may mutate
the registry and UI state. -/
inductive Step : Registry × Ui → Registry × Ui → Prop where
  | button (p : Bool) (t : ℤ) (env : ToneEnv) (s : Registry × Ui) :
      Step s ((check_button p t env s.1 s.2).1, (check_button p t env s.1 s.2).2.1)
  | display (env : Page4Env) (t : ℤ) (s : Registry × Ui) :
      Step s ((update_display s.1 env s.2 t).1, (update_display s.1 env s.2 t).2.1)
  | rainbow (t : ℤ) (s : Registry × Ui) :
      Step s (s.1, (rainbow_demo s.1 s.2 t).1)

/-- States reachable by the main loop from the post-construction state
(any registry the hardware produced, UI freshly constructed). -/
def Reachable (reg0 : Registry) (s : Registry × Ui) : Prop :=
  Relation.ReflTransGen Step (reg0, ui0) s

/-- A registry with every peripheral up and representative cached
measurements, used for concrete evaluations. -/
def regAllOk : Registry :=
  { oled_ok := true, ws2812b_ok := true, sd_ok := true, dht22_ok := true,
    button_ok := false, buzzer_ok := true, ldr_ok := true,
    trimmer_ok := true, rgb_led_ok := true,
    temperature := 25, humidity := 60,
    ldr_value := 32767, trimmer_value := 65535 }

/-- A registry with every peripheral down, used for concrete
evaluations. -/
def regAllDown : Registry :=
  { oled_ok := false, ws2812b_ok := false, sd_ok := false,
    dht22_ok := false, button_ok := false, buzzer_ok := false,
    ldr_ok := false, trimmer_ok := false, rgb_led_ok := false,
    temperature := 25, humidity := 60,
    ldr_value := 32767, trimmer_value := 65535 }

/-- The registry after a failing DHT22 read demoted the sensor, with the
pre-failure measurements still cached. -/
def regDhtDown : Registry := { regAllOk with dht22_ok := false }

/-- Two consecutive button activations: `check_button` with the line
active at time `t1`, then again at time `t2`, starting from `(reg, ui)`. -/
def press_seq (reg : Registry) (ui : Ui) (env : ToneEnv) (t1 t2 : ℤ) :
    Registry × Ui × List Effect :=
  let r1 := check_button true t1 env reg ui
  check_button true t2 env r1.1 r1.2.1

/-- Loop-iteration times of a continuous 650 ms button hold, one
`check_button` poll per 50 ms main-loop iteration. -/
def hold_times : List ℤ :=
  [1000, 1050, 1100, 1150, 1200, 1250, 1300, 1350, 1400, 1450, 1500, 1550, 1600]

/-- Folding `check_button` with the button level continuously active over
`hold_times`, from the all-up registry and fresh UI state. -/
def hold_run : Registry × Ui :=
  hold_times.foldl
    (fun s t =>
      let r := check_button true t ⟨false⟩ s.1 s.2
      (r.1, r.2.1))
    (regAllOk, ui0)

section ClaimOne

/-- Helper: the sextant index of a hue in `[60k, 60(k+1))` is `k`. -/
theorem floor_div_sixty (h : ℚ) (k : ℕ) (hlo : (60 * k : ℚ) ≤ h)
    (hhi : h < 60 * (k + 1)) : ⌊h / 60⌋ = k := by
  rw [Int.floor_eq_iff]
  constructor
  · push_cast
    rw [le_div_iff₀ (by norm_num : (0 : ℚ) < 60)]
    linarith
  · push_cast
    rw [div_lt_iff₀ (by norm_num : (0 : ℚ) < 60)]
    linarith

end ClaimOne

/-- C1 counterexample: at hue 30 with full saturation and value the source
computes the green channel as `int(127.5) = 127`, while the spec's
`round((channel+m)*255)` reference yields `round(127.5) = 128`, so
`hsv_to_rgb` does not equal the rounding reference. -/
theorem hsv_to_rgb_int_vs_round_at_30 :
    hsv_to_rgb 30 255 255 = (255, 127, 0) ∧
    hsv_round_ref 30 255 255 = (255, 128, 0) ∧
    hsv_to_rgb 30 255 255 ≠ hsv_round_ref 30 255 255 := by
  have ha : |(1 : ℚ) / 2| = 1 / 2 := abs_of_nonneg (by norm_num)
  have e1 : hsv_to_rgb 30 255 255 = (255, 127, 0) := by
    norm_num [hsv_to_rgb, pymod, pytrunc, ha]
  have e2 : hsv_round_ref 30 255 255 = (255, 128, 0) := by
    norm_num [hsv_round_ref, pymod, pytrunc, round_eq, ha]
  refine ⟨e1, e2, ?_⟩
  rw [e1, e2]
  simp

/-- C1 (amended): for every hue in `[0, 360)` and every saturation and
value, `hsv_to_rgb` equals the standard six-sextant HSV→RGB reference that
selects the pre-offset triple by the half-open sextant `⌊h/60⌋` and
computes each final channel by `int((channel+m)*255)` truncation (the
source truncates where the spec said `round`). -/
theorem hsv_to_rgb_eq_sextant_trunc_ref (h : ℚ) (s v : ℕ)
    (h0 : 0 ≤ h) (h360 : h < 360) :
    hsv_to_rgb h s v = hsv_trunc_ref h s v := by
  by_cases c1 : h < 60
  · have hk : ⌊h / 60⌋ = 0 := by
      have := floor_div_sixty h 0 (by push_cast; linarith) (by push_cast; linarith)
      simpa using this
    simp [hsv_to_rgb, hsv_trunc_ref, hk, h0, c1]
  · have d1 : (60 : ℚ) ≤ h := not_lt.mp c1
    by_cases c2 : h < 120
    · have hk : ⌊h / 60⌋ = 1 := by
        have := floor_div_sixty h 1 (by push_cast; linarith) (by push_cast; linarith)
        simpa using this
      simp [hsv_to_rgb, hsv_trunc_ref, hk, c1, d1, c2]
    · have d2 : (120 : ℚ) ≤ h := not_lt.mp c2
      by_cases c3 : h < 180
      · have hk : ⌊h / 60⌋ = 2 := by
          have := floor_div_sixty h 2 (by push_cast; linarith) (by push_cast; linarith)
          simpa using this
        simp [hsv_to_rgb, hsv_trunc_ref, hk, c1, c2, d2, c3]
      · have d3 : (180 : ℚ) ≤ h := not_lt.mp c3
        by_cases c4 : h < 240
        · have hk : ⌊h / 60⌋ = 3 := by
            have := floor_div_sixty h 3 (by push_cast; linarith) (by push_cast; linarith)
            simpa using this
          simp [hsv_to_rgb, hsv_trunc_ref, hk, c1, c2, c3, d3, c4]
        · have d4 : (240 : ℚ) ≤ h := not_lt.mp c4
          by_cases c5 : h < 300
          · have hk : ⌊h / 60⌋ = 4 := by
              have := floor_div_sixty h 4 (by push_cast; linarith) (by push_cast; linarith)
              simpa using this
            simp [hsv_to_rgb, hsv_trunc_ref, hk, c1, c2, c3, c4, d4, c5]
          · have d5 : (300 : ℚ) ≤ h := not_lt.mp c5
            have hk : ⌊h / 60⌋ = 5 := by
              have := floor_div_sixty h 5 (by push_cast; linarith) (by push_cast; linarith)
              simpa using this
            simp [hsv_to_rgb, hsv_trunc_ref, hk, c1, c2, c3, c4, c5]

/-- C1 amended-theorem witness at hue 30, full saturation and value. -/
theorem hsv_to_rgb_eq_sextant_trunc_ref_witness :
    hsv_to_rgb 30 255 255 = hsv_trunc_ref 30 255 255 :=
  hsv_to_rgb_eq_sextant_trunc_ref 30 255 255 (by norm_num) (by norm_num)

/-- C2 counterexample: with every peripheral up, a fault in the RGB-disable
step makes the single shutdown handler swallow the error before the LED
strip and buzzer disables run, so neither is disabled — contradicting the
claim that they would still be disabled. -/
theorem final_cleanup_rgb_fault_skips_rest :
    regAllOk.rgb_led_ok = true ∧
    final_cleanup regAllOk ⟨true, false, false⟩ = ⟨false, false, false⟩ :=
  ⟨rfl, rfl⟩

/-- C2 (amended): the shutdown sequence never lets a fault escape and,
when no step faults, disables the LED strip and buzzer and drives the RGB
LED off exactly when it is available; but the three disables share one
`try/except`, so a fault in the RGB-disable step (possible only when the
RGB LED is available) skips the strip and buzzer disables, while an
unavailable RGB LED is skipped harmlessly and the rest still run. -/
theorem final_cleanup_behavior (reg : Registry) (env : CleanupEnv) :
    (env.rgbFault = false → env.stripFault = false → env.buzzerFault = false →
      final_cleanup reg env = ⟨reg.rgb_led_ok, true, true⟩) ∧
    (env.rgbFault = true → reg.rgb_led_ok = true →
      final_cleanup reg env = ⟨false, false, false⟩) ∧
    (reg.rgb_led_ok = false → env.stripFault = false → env.buzzerFault = false →
      final_cleanup reg env = ⟨false, true, true⟩) := by
  rcases env with ⟨rf, sf, bf⟩
  cases hrgb : reg.rgb_led_ok <;> cases rf <;> cases sf <;> cases bf <;>
    simp [final_cleanup, set_rgb_color, hrgb]

/-- C2 amended-theorem witness: the fault-free shutdown from the all-up
registry disables everything. -/
theorem final_cleanup_behavior_witness :
    final_cleanup regAllOk ⟨false, false, false⟩ =
      ⟨regAllOk.rgb_led_ok, true, true⟩ :=
  (final_cleanup_behavior regAllOk ⟨false, false, false⟩).1 rfl rfl rfl

/-- C4 counterexample: with the LED strip and buzzer flagged unavailable,
the exit cleanup still drives both (the strip `fill`/`write` and the
buzzer duty write are unguarded), contradicting the claim that a
peripheral whose flag is false is never driven again. -/
theorem final_cleanup_drives_unavailable_strip :
    regAllDown.ws2812b_ok = false ∧ regAllDown.buzzer_ok = false ∧
    (final_cleanup regAllDown ⟨false, false, false⟩).stripOff = true ∧
    (final_cleanup regAllDown ⟨false, false, false⟩).buzzerOff = true :=
  ⟨rfl, rfl, rfl, rfl⟩

/-- C4 (amended): every runtime operation guards on the `available` flag —
the sensor tests, buzzer test and tone playback, RGB writes and test,
display refresh, rainbow animation and storage test are all no-ops with no
device access once the corresponding flag is false — but the process-exit
cleanup is the exception: it drives the LED strip and buzzer
unconditionally, whatever their flags. -/
theorem unavailable_peripheral_guards (reg : Registry) :
    (reg.dht22_ok = false → ∀ r, test_dht22 reg r = reg) ∧
    (reg.ldr_ok = false → ∀ r, test_ldr reg r = reg) ∧
    (reg.trimmer_ok = false → ∀ r, test_trimmer reg r = reg) ∧
    (reg.buzzer_ok = false →
      (∀ env, test_buzzer reg env = (reg, [])) ∧
      (∀ env f d, play_tone reg env f d = [])) ∧
    (reg.rgb_led_ok = false →
      (∀ fl r g b, set_rgb_color reg fl r g b = Except.ok []) ∧
      (∀ fl, test_rgb_led reg fl = (reg, []))) ∧
    (reg.oled_ok = false →
      ∀ env ui now, update_display reg env ui now = (reg, ui, none)) ∧
    (reg.ws2812b_ok = false →
      ∀ ui now, rainbow_demo reg ui now = (ui, none)) ∧
    (reg.sd_ok = false → ∀ fs env, test_sd_card reg fs env = (reg, fs)) ∧
    (∀ env : CleanupEnv,
      env.rgbFault = false → env.stripFault = false → env.buzzerFault = false →
      (final_cleanup reg env).stripOff = true ∧
      (final_cleanup reg env).buzzerOff = true) := by
  refine ⟨?_, ?_, ?_, ?_, ?_, ?_, ?_, ?_, ?_⟩
  · intro h r; simp [test_dht22, h]
  · intro h r; simp [test_ldr, h]
  · intro h r; simp [test_trimmer, h]
  · intro h
    exact ⟨fun env => by simp [test_buzzer, h],
           fun env f d => by simp [play_tone, h]⟩
  · intro h
    exact ⟨fun fl r g b => by simp [set_rgb_color, h],
           fun fl => by simp [test_rgb_led, h]⟩
  · intro h env ui now; simp [update_display, h]
  · intro h ui now; simp [rainbow_demo, h]
  · intro h fs env; simp [test_sd_card, h]
  · rintro ⟨rf, sf, bf⟩ h1 h2 h3
    simp only at h1 h2 h3
    subst h1; subst h2; subst h3
    by_cases hr : reg.rgb_led_ok <;> simp [final_cleanup, set_rgb_color, hr]

/-- C4 amended-theorem witness: with the DHT22 demoted, its test is a
no-op. -/
theorem unavailable_peripheral_guards_witness :
    test_dht22 regAllDown none = regAllDown :=
  (unavailable_peripheral_guards regAllDown).1 rfl none

/-- C7 counterexample: with the buzzer available and the PWM driver
faulting during tone emission, `play_tone`'s bare `except` swallows the
fault, `test_buzzer` completes normally with no tone emitted, and the
buzzer's `available` flag stays `true` — contradicting the claim that any
failure during tone emission flips it to false. -/
theorem test_buzzer_fault_keeps_flag :
    regAllOk.buzzer_ok = true ∧
    (test_buzzer regAllOk ⟨true⟩).1.buzzer_ok = true ∧
    (test_buzzer regAllOk ⟨true⟩).2 = [Effect.pause 100, Effect.pause 100] :=
  ⟨rfl, rfl, rfl⟩

/-- C7 (amended): the buzzer test never propagates an exception and, when
the driver is healthy, emits 1500 Hz then 2000 Hz tones for 200 ms each
with 100 ms gaps; a failure during tone emission is swallowed inside
`play_tone`, so the test always leaves the registry — in particular the
buzzer `available` flag — unchanged. -/
theorem test_buzzer_behavior (reg : Registry) (env : ToneEnv)
    (hb : reg.buzzer_ok = true) :
    (test_buzzer reg env).1 = reg ∧
    (env.toneFault = false →
      (test_buzzer reg env).2 =
        [Effect.tone 1500 200, Effect.pause 100,
         Effect.tone 2000 200, Effect.pause 100]) := by
  rcases env with ⟨tf⟩
  cases tf <;> simp [test_buzzer, play_tone, hb]

/-- C7 amended-theorem witness: the healthy buzzer test on the all-up
registry. -/
theorem test_buzzer_behavior_witness :
    (test_buzzer regAllOk ⟨false⟩).1 = regAllOk ∧
    (test_buzzer regAllOk ⟨false⟩).2 =
      [Effect.tone 1500 200, Effect.pause 100,
       Effect.tone 2000 200, Effect.pause 100] :=
  ⟨(test_buzzer_behavior regAllOk ⟨false⟩ rfl).1,
   (test_buzzer_behavior regAllOk ⟨false⟩ rfl).2 rfl⟩

/-- Helper: the live-data page's LDR re-read never changes the cached
temperature. -/
theorem test_ldr_temperature (reg : Registry) (r : Option ℕ) :
    (test_ldr reg r).temperature = reg.temperature := by
  cases r <;> by_cases h : reg.ldr_ok <;> simp [test_ldr, h]

/-- Helper: the live-data page's LDR re-read never changes the cached
humidity. -/
theorem test_ldr_humidity (reg : Registry) (r : Option ℕ) :
    (test_ldr reg r).humidity = reg.humidity := by
  cases r <;> by_cases h : reg.ldr_ok <;> simp [test_ldr, h]

/-- Helper: the trimmer re-read never changes the cached temperature. -/
theorem test_trimmer_temperature (reg : Registry) (r : Option ℕ) :
    (test_trimmer reg r).temperature = reg.temperature := by
  cases r <;> by_cases h : reg.trimmer_ok <;> simp [test_trimmer, h]

/-- Helper: the trimmer re-read never changes the cached humidity. -/
theorem test_trimmer_humidity (reg : Registry) (r : Option ℕ) :
    (test_trimmer reg r).humidity = reg.humidity := by
  cases r <;> by_cases h : reg.trimmer_ok <;> simp [test_trimmer, h]

/-- C3 counterexample: after a failing DHT22 read demoted the sensor
(`dht22_ok = false`), the live-data page still renders the cached
temperature and humidity in its combined `T:..C H:..%` line — a display
page renders the failed sensor's cached measurements, contradicting the
claim that only the placeholder is shown. -/
theorem display_page4_renders_cached_dht :
    regDhtDown.dht22_ok = false ∧
    Line.tempHum regDhtDown.temperature regDhtDown.humidity ∈
      (display_page4 regDhtDown ⟨some 100, some 200⟩).2 := by
  refine ⟨rfl, ?_⟩
  simp [display_page4, test_ldr, test_trimmer, regDhtDown, regAllOk]

/-- C3 (amended): with the DHT22 demoted, the sensor page (page 2) renders
the `No Data` placeholder and no temperature/humidity line, and a demoted
LDR likewise renders `FAIL` there instead of a percentage; but the
live-data page (page 4) renders the cached temperature and humidity
unconditionally. -/
theorem display_pages_placeholder_behavior (reg : Registry)
    (hdht : reg.dht22_ok = false) :
    (Line.dhtNoData ∈ display_page2 reg) ∧
    (∀ t : ℚ, Line.temp t ∉ display_page2 reg) ∧
    (∀ t h : ℚ, Line.tempHum t h ∉ display_page2 reg) ∧
    (reg.ldr_ok = false →
      Line.ldrFail ∈ display_page2 reg ∧
      ∀ p, Line.ldrPercent p ∉ display_page2 reg) ∧
    (∀ env : Page4Env,
      Line.tempHum reg.temperature reg.humidity ∈
        (display_page4 reg env).2) := by
  refine ⟨?_, ?_, ?_, ?_, ?_⟩
  · by_cases hl : reg.ldr_ok <;> simp [display_page2, hdht, hl]
  · intro t; by_cases hl : reg.ldr_ok <;> simp [display_page2, hdht, hl]
  · intro t h; by_cases hl : reg.ldr_ok <;> simp [display_page2, hdht, hl]
  · intro hl
    constructor
    · simp [display_page2, hdht, hl]
    · intro p; simp [display_page2, hdht, hl]
  · intro env
    simp [display_page4, test_ldr_temperature, test_ldr_humidity,
          test_trimmer_temperature, test_trimmer_humidity]

/-- C3 amended-theorem witness: the demoted-DHT22 registry. -/
theorem display_pages_placeholder_behavior_witness :
    Line.dhtNoData ∈ display_page2 regDhtDown :=
  (display_pages_placeholder_behavior regDhtDown rfl).1

/-- C5: starting from a debouncer ready to accept (more than 200 ms since
the last accepted trigger), two button activations less than 200 ms apart
produce exactly one page advance — the second changes no state and emits
no feedback — while two activations more than 200 ms apart produce two
page advances. -/
theorem debounce_pair_advances (reg : Registry) (ui : Ui) (env : ToneEnv)
    (t1 t2 : ℤ) (h1 : t1 - ui.last_button_time > DEBOUNCE_DELAY) :
    (t2 - t1 < DEBOUNCE_DELAY →
      (press_seq reg ui env t1 t2).2.1.current_page =
        (ui.current_page + 1) % TOTAL_PAGES ∧
      press_seq reg ui env t1 t2 =
        ((check_button true t1 env reg ui).1,
         (check_button true t1 env reg ui).2.1, [])) ∧
    (t2 - t1 > DEBOUNCE_DELAY →
      (press_seq reg ui env t1 t2).2.1.current_page =
        (ui.current_page + 2) % TOTAL_PAGES) := by
  constructor
  · intro hlt
    have h2 : ¬(t2 - t1 > DEBOUNCE_DELAY) := by
      simp only [DEBOUNCE_DELAY] at *
      omega
    simp [press_seq, check_button, h1, h2]
  · intro hgt
    simp [press_seq, check_button, h1, hgt, TOTAL_PAGES]

/-- C5 witness: presses at 300 ms and 400 ms from the fresh UI state
advance the page exactly once. -/
theorem debounce_pair_advances_witness :
    (press_seq regAllOk ui0 ⟨false⟩ 300 400).2.1.current_page =
      (ui0.current_page + 1) % TOTAL_PAGES :=
  ((debounce_pair_advances regAllOk ui0 ⟨false⟩ 300 400 (by decide)).1
    (by decide)).1

/-- C6: the storage test writes `'Pico2 W Test'` to the fixed path, reads
it back, and — when no step raises — leaves `sd_ok` set if and only if the
read content contains `'Pico2 W'`, removing the file regardless of that
verification outcome; a raising write demotes the flag; a raising read
demotes the flag (the freshly written file then remains, the delete being
part of the same protected block); and the written payload does contain
the needle, so a faithful read passes. -/
theorem test_sd_card_spec (reg : Registry) (fs : Option (List Char))
    (env : SdEnv) (hsd : reg.sd_ok = true) :
    (∀ c, env.writeOk = true → env.readResult = some c → env.removeOk = true →
      (test_sd_card reg fs env).1.sd_ok = containsSub sd_needle c ∧
      (test_sd_card reg fs env).2 = none) ∧
    (env.writeOk = false → (test_sd_card reg fs env).1.sd_ok = false) ∧
    (env.writeOk = true → env.readResult = none →
      (test_sd_card reg fs env).1.sd_ok = false ∧
      (test_sd_card reg fs env).2 = some sd_payload) ∧
    containsSub sd_needle sd_payload = true := by
  refine ⟨?_, ?_, ?_, by rfl⟩
  · intro c hw hr hrm
    by_cases hc : containsSub sd_needle c <;>
      simp [test_sd_card, hsd, hw, hr, hrm, hc]
  · intro hw
    simp [test_sd_card, hsd, hw]
  · intro hw hr
    simp [test_sd_card, hsd, hw, hr]

/-- C6 witness: the all-healthy run (the card faithfully returns the
written payload) passes and removes the file. -/
theorem test_sd_card_spec_witness :
    (test_sd_card regAllOk none ⟨true, some sd_payload, true⟩).1.sd_ok =
      containsSub sd_needle sd_payload ∧
    (test_sd_card regAllOk none ⟨true, some sd_payload, true⟩).2 = none :=
  (test_sd_card_spec regAllOk none ⟨true, some sd_payload, true⟩ rfl).1
    sd_payload rfl rfl rfl

/-- C8: the raw-to-percentage conversion is `value * 100 / 65535` in
integer floor division, mapping 65535 to 100, 0 to 0 and 32767 to 49, and
it is exactly what the sensor page renders for the LDR and the controls
page renders for the trimmer. -/
theorem adc_percent_spec :
    adc_percent 65535 = 100 ∧ adc_percent 0 = 0 ∧ adc_percent 32767 = 49 ∧
    (∀ reg : Registry, reg.ldr_ok = true →
      Line.ldrPercent (adc_percent reg.ldr_value) ∈ display_page2 reg) ∧
    (∀ reg : Registry, reg.trimmer_ok = true →
      Line.trimPercent (adc_percent reg.trimmer_value) ∈ display_page3 reg) := by
  refine ⟨by decide, by decide, by decide, ?_, ?_⟩
  · intro reg h
    by_cases hd : reg.dht22_ok <;> simp [display_page2, h, hd]
  · intro reg h
    simp [display_page3, h]

/-- C8 witness: the all-up registry's LDR percentage line. -/
theorem adc_percent_spec_witness :
    Line.ldrPercent (adc_percent regAllOk.ldr_value) ∈ display_page2 regAllOk :=
  adc_percent_spec.2.2.2.1 regAllOk rfl

/-- Helper: one `check_button` call either leaves the page cursor alone or
advances it modulo `TOTAL_PAGES`. -/
theorem check_button_page_cases (p : Bool) (t : ℤ) (env : ToneEnv)
    (reg : Registry) (ui : Ui) :
    (check_button p t env reg ui).2.1.current_page = ui.current_page ∨
    (check_button p t env reg ui).2.1.current_page =
      (ui.current_page + 1) % TOTAL_PAGES := by
  cases p <;> by_cases h : t - ui.last_button_time > DEBOUNCE_DELAY <;>
    simp [check_button, h]

/-- Helper: a display refresh never changes the page cursor. -/
theorem update_display_keeps_page (reg : Registry) (env : Page4Env)
    (ui : Ui) (now : ℤ) :
    (update_display reg env ui now).2.1.current_page = ui.current_page := by
  by_cases h1 : reg.oled_ok <;>
    by_cases h2 : now - ui.last_display_update > 500 <;>
      simp [update_display, h1, h2]

/-- Helper: an animation tick never changes the page cursor. -/
theorem rainbow_demo_keeps_page (reg : Registry) (ui : Ui) (now : ℤ) :
    (rainbow_demo reg ui now).1.current_page = ui.current_page := by
  by_cases h1 : reg.ws2812b_ok <;>
    by_cases h2 : now - ui.last_rainbow_update > 150 <;>
      simp [rainbow_demo, h1, h2]

/-- Helper: every scheduling step of the main loop preserves the bound on
the page cursor. -/
theorem step_preserves_page_lt {a b : Registry × Ui} (hstep : Step a b)
    (ha : a.2.current_page < TOTAL_PAGES) :
    b.2.current_page < TOTAL_PAGES := by
  cases hstep with
  | button p t env s =>
    show (check_button p t env a.1 a.2).2.1.current_page < TOTAL_PAGES
    rcases check_button_page_cases p t env a.1 a.2 with h | h
    · rw [h]; exact ha
    · rw [h]; exact Nat.mod_lt _ (by decide)
  | display env t s =>
    show (update_display a.1 env a.2 t).2.1.current_page < TOTAL_PAGES
    rw [update_display_keeps_page]; exact ha
  | rainbow t s =>
    show (rainbow_demo a.1 a.2 t).1.current_page < TOTAL_PAGES
    rw [rainbow_demo_keeps_page]; exact ha

/-- C9: in every main-loop state reachable from the fresh UI state the
page cursor stays below `TOTAL_PAGES = 4`, and every accepted button
trigger advances it to `(current + 1) % TOTAL_PAGES`, i.e. cyclically
0→1→2→3→0. -/
theorem page_cursor_invariant (reg0 : Registry) (s : Registry × Ui)
    (hr : Reachable reg0 s) :
    s.2.current_page < TOTAL_PAGES ∧
    (∀ (reg : Registry) (ui : Ui) (env : ToneEnv) (t : ℤ),
      t - ui.last_button_time > DEBOUNCE_DELAY →
      (check_button true t env reg ui).2.1.current_page =
        (ui.current_page + 1) % TOTAL_PAGES) := by
  constructor
  · induction hr with
    | refl => show ui0.current_page < TOTAL_PAGES; decide
    | tail _ hstep ih => exact step_preserves_page_lt hstep ih
  · intro reg ui env t ht
    simp [check_button, ht]

/-- C9 witness: the initial state itself. -/
theorem page_cursor_invariant_witness :
    ((regAllOk, ui0) : Registry × Ui).2.current_page < TOTAL_PAGES :=
  (page_cursor_invariant regAllOk (regAllOk, ui0)
    Relation.ReflTransGen.refl).1

/-- C10: the debouncer is level-triggered — whenever the button input
reads active and more than 200 ms elapsed since the last accepted trigger,
the trigger is accepted (page advance, timestamp update, flag set),
independent of any press/release history; consequently a continuous
650 ms hold polled every 50 ms (one poll per loop iteration) accepts at
1000, 1250 and 1500 ms and advances the page three times. -/
theorem debounce_level_triggered :
    (∀ (reg : Registry) (ui : Ui) (env : ToneEnv) (now : ℤ),
      now - ui.last_button_time > DEBOUNCE_DELAY →
      (check_button true now env reg ui).2.1.current_page =
        (ui.current_page + 1) % TOTAL_PAGES ∧
      (check_button true now env reg ui).2.1.last_button_time = now ∧
      (check_button true now env reg ui).1.button_ok = true) ∧
    hold_run.2.current_page = 3 ∧ hold_run.2.last_button_time = 1500 := by
  refine ⟨?_, rfl, rfl⟩
  intro reg ui env now h
  simp [check_button, h]

/-- C10 witness: a press at 300 ms from the fresh UI state is accepted. -/
theorem debounce_level_triggered_witness :
    (check_button true 300 ⟨false⟩ regAllOk ui0).2.1.current_page =
      (ui0.current_page + 1) % TOTAL_PAGES :=
  (debounce_level_triggered.1 regAllOk ui0 ⟨false⟩ 300 (by decide)).1

end ESRTest
